import Mathlib

/-!
Verification of the vertexnova/vnetemplate repository.

The repository is a C++ project template. Its library exposes two functions
(src/README.md, embedded template.cpp, lines 142-168):

  const char* get_version() { return PROJECT_VERSION; }
  const char* hello()       { return "Hello from VneTemplate"; }

and ships four build-wrapper scripts:

  scripts/build_linux.sh, scripts/build_windows.sh, scripts/build_windows.ps1,
  and the macOS script (src/unnamed/part_002, named build_macos.sh by its header).

This file gives a shallow embedding of those pieces and proves the specified
properties about them.  C strings returned by the library are modelled as
`Option String`, where `none` models a NULL pointer.
-/

namespace VneTemplate

/-! ## Library API (template.cpp) -/

/-- The compile-time configuration visible to template.cpp: `config.h` defines
the `PROJECT_VERSION` macro.  The macro always expands to a string literal, so a
call of `get_version` can never yield a NULL pointer. -/
structure Config where
  PROJECT_VERSION : String
deriving DecidableEq

/-- Modelled from the spec: the `CMakeLists.txt` and `configs/config.h.in` that
produce `config.h` are not under src/.  Per the README ("The VERSION file at the
repo root is the source of truth; CMake reads it at configure time (via
file(READ) in CMakeLists.txt) and uses that value for the project version, which
is exposed in code as get_version()"), configuring the build turns the VERSION
file content into the `PROJECT_VERSION` macro unchanged. -/
def configureConfig (versionFileContent : String) : Config :=
  ⟨versionFileContent⟩

/-- Modelled from the spec: the VERSION file's content is "the build-configured
semantic version string" (README: "this project adheres to Semantic
Versioning"), i.e. dotted MAJOR.MINOR.PATCH with non-empty numeric components.
`splitDots` splits a character list at the dots. -/
def splitDots : List Char → List (List Char)
  | [] => [[]]
  | c :: rest =>
    if c = '.' then [] :: splitDots rest
    else
      match splitDots rest with
      | [] => [[c]]
      | g :: gs => (c :: g) :: gs

/-- A semantic version string: exactly three dot-separated non-empty numeric
components (see `splitDots`). -/
def isSemVer (s : String) : Bool :=
  match splitDots s.toList with
  | [a, b, c] =>
    !a.isEmpty && !b.isEmpty && !c.isEmpty &&
      a.all Char.isDigit && b.all Char.isDigit && c.all Char.isDigit
  | _ => false

/-- vne::template_ns::get_version (template.cpp): returns the PROJECT_VERSION
macro.  `none` would model returning NULL; the function returns a string. -/
def get_version (cfg : Config) : Option String :=
  some cfg.PROJECT_VERSION

/-- vne::template_ns::hello (template.cpp): returns the fixed greeting
string literal. -/
def hello : Option String :=
  some "Hello from VneTemplate"

/-- The two entry points of the library. -/
inductive ApiCall
  | getVersionCall
  | helloCall
deriving DecidableEq

/-- One call of a library function, threaded through an arbitrary ambient state
`σ`.  Both function bodies are single return statements of constants: they read
no state and write no state, so the state component passes through unchanged.
This is the faithful state semantics of template.cpp. -/
def callApi (cfg : Config) {σ : Type} (c : ApiCall) (s : σ) : Option String × σ :=
  match c with
  | .getVersionCall => (get_version cfg, s)
  | .helloCall => (hello, s)

/-- The result a call yields when run sequentially, alone (on the trivial
state). -/
def seqResult (cfg : Config) (c : ApiCall) : Option String :=
  (callApi cfg c ()).1

/-- Run a whole schedule of calls, tagged with thread ids, in the given
interleaving order against a shared state: each scheduled call executes
`callApi` on the state left by the previous one.  Any interleaving of any
number of threads is some such schedule. -/
def runCalls (cfg : Config) {σ : Type} : List (Nat × ApiCall) → σ → List (Nat × Option String) × σ
  | [], s => ([], s)
  | (t, c) :: rest, s =>
    let p := callApi cfg c s
    let q := runCalls cfg rest p.2
    ((t, p.1) :: q.1, q.2)

/-! ## Build scripts: shared model

The four build scripts drive CMake.  A run is modelled by the exit status, the
trace of observable steps (directory preparation, the external commands the
script launches, the usage message), and the resulting state of the build
directory.  External commands' own file writes are outside the scripts and are
not modelled; the scripts' own `rm -rf` / `mkdir -p` effects are. -/

/-- State of the build directory `BUILD_DIR` selected by a script run: `none`
means the directory does not exist, `some c` that it exists with contents
fingerprint `c` (`0` = freshly created, empty).  Paths other than the selected
build directory are never touched by the scripts' own file commands. -/
structure Fs where
  buildDir : Option Nat
deriving DecidableEq

/-- One observable step of a build script run. -/
inductive Step
  | cleanDir                  -- rm -rf BUILD_DIR && mkdir -p BUILD_DIR
  | ensureDir                 -- mkdir -p BUILD_DIR when missing, else nothing
  | configure (cmd : String)  -- launch the CMake configure command
  | build (cmd : String)      -- launch the build command
  | test (cmd : String)       -- launch the test command
  | usage                     -- print the usage text
deriving DecidableEq

/-- The kind of a step, forgetting the launched command line. -/
inductive SKind
  | cleanK | ensureK | configureK | buildK | testK | usageK
deriving DecidableEq

/-- Forget a step's payload. -/
def Step.kind : Step → SKind
  | .cleanDir => .cleanK
  | .ensureDir => .ensureK
  | .configure _ => .configureK
  | .build _ => .buildK
  | .test _ => .testK
  | .usage => .usageK

/-- Is the step one of the three external build-tool invocations (configure,
build, test)? -/
def isActionStep (s : Step) : Bool :=
  match s with
  | .configure _ => true
  | .build _ => true
  | .test _ => true
  | _ => false

/-- The configure/build/test steps of a trace, in order, as kinds. -/
def actionKinds (tr : List Step) : List SKind :=
  (tr.filter isActionStep).map Step.kind

/-- Is the step a build-directory preparation step? -/
def isDirStep (s : Step) : Bool :=
  match s with
  | .cleanDir => true
  | .ensureDir => true
  | _ => false

/-- The outcome of one script invocation: exit status (0 = success; every
failure path of the scripts exits with a non-zero status, modelled as 1), the
step trace, and the final build-directory state. -/
structure RunResult where
  exit : Nat
  trace : List Step
  fs : Fs
deriving DecidableEq

/-- The machine the scripts run on: which tools are installed and whether the
external commands succeed on this project.  `configureOk` is the health of the
CMake configure step itself given that cmake and the requested compiler are
present; it does not depend on the CMAKE_BUILD_TYPE value, because CMake
accepts an arbitrary CMAKE_BUILD_TYPE (an unknown value is not a CMake error).
`buildOk`/`testsOk` likewise cover the build tool and ctest runs. -/
structure Env where
  gccInstalled : Bool
  clangInstalled : Bool
  clInstalled : Bool
  vsInstalled : Bool
  cmakeInstalled : Bool
  configureOk : Bool
  buildOk : Bool
  testsOk : Bool
deriving DecidableEq

/-- An environment in which every tool is installed and every external command
succeeds. -/
def envAllOk : Env :=
  ⟨true, true, true, true, true, true, true, true⟩

/-- clean_build (all scripts): `rm -rf "$BUILD_DIR"; mkdir -p "$BUILD_DIR"` —
the build directory is removed and recreated empty, whatever was there. -/
def clean_build (_fs : Fs) : Fs :=
  ⟨some 0⟩

/-- ensure_build_dir (all scripts): create the build directory only if it does
not exist; an existing directory and its contents are left in place. -/
def ensure_build_dir (fs : Fs) : Fs :=
  match fs.buildDir with
  | none => ⟨some 0⟩
  | some c => ⟨some c⟩

/-- The bash scripts' directory preparation:
`[ "$CLEAN_BUILD" = true ] && clean_build || ensure_build_dir`. -/
def dirPrep (clean : Bool) (fs : Fs) : Step × Fs :=
  if clean then (.cleanDir, clean_build fs) else (.ensureDir, ensure_build_dir fs)

/-- Bash `[[ "$x" =~ ^[0-9]+$ ]]`: non-empty and all digits. -/
def isDigits (s : String) : Bool :=
  !s.toList.isEmpty && s.toList.all Char.isDigit

/-- Does the argument match the bash case pattern `-j*`? -/
def startsWithDashJ (a : String) : Bool :=
  match a.toList with
  | '-' :: 'j' :: _ => true
  | _ => false

/-- Bash `"${1#-j}"`: the argument with its leading `-j` removed. -/
def dropDashJ (a : String) : String :=
  String.mk (a.toList.drop 2)

/-- The jobs pre-pass shared verbatim by the three bash scripts
(build_linux.sh 23-47, build_windows.sh 20-26, build_macos.sh/part_002 19-26):
scan all arguments; `-j N`/`--jobs N` with numeric N and `-jN` with numeric N
set JOBS and are removed; a non-numeric or missing jobs value exits 1 (`none`);
every other argument is kept, in order, for the main option loop. -/
def jobsPrepass : List String → String → Option (String × List String)
  | [], j => some (j, [])
  | a :: rest, j =>
    if a == "-j" || a == "--jobs" then
      match rest with
      | [] => none
      | b :: rest2 => if isDigits b then jobsPrepass rest2 b else none
    else if startsWithDashJ a then
      if isDigits (dropDashJ a) then jobsPrepass rest (dropDashJ a) else none
    else
      match jobsPrepass rest j with
      | none => none
      | some (j2, kept) => some (j2, a :: kept)

/-- Why option parsing stopped the script. -/
inductive ParseErr
  | usageErr  -- unknown option, or -h/--help: the usage text is printed, exit 1
  | shiftErr  -- an option's value is missing: `shift 2` fails under set -e, exit 1
deriving DecidableEq

/-- The action values the scripts' case statements accept. -/
def validAction (a : String) : Bool :=
  a == "configure" || a == "build" || a == "configure_and_build" || a == "test"

/-- The action dispatch shared by the three bash scripts (build_linux.sh
260-300, build_windows.sh 95-101, build_macos.sh/part_002 76-82): each of the
four valid actions first prepares the build directory, then launches configure;
`build` and `configure_and_build` continue with the build command, `test` with
build and then tests; an external command failing aborts the run non-zero
(set -e).  Any other action value prints usage and exits 1 without touching the
build directory. -/
def dispatch (action : String) (clean : Bool) (fs : Fs)
    (cfgOk : Bool) (cfgCmd : String) (bOk : Bool) (bCmd : String)
    (tOk : Bool) (tCmd : String) : RunResult :=
  if validAction action then
    let p := dirPrep clean fs
    if !cfgOk then ⟨1, [p.1, .configure cfgCmd], p.2⟩
    else if action == "configure" then ⟨0, [p.1, .configure cfgCmd], p.2⟩
    else if !bOk then ⟨1, [p.1, .configure cfgCmd, .build bCmd], p.2⟩
    else if action == "test" then
      if !tOk then ⟨1, [p.1, .configure cfgCmd, .build bCmd, .test tCmd], p.2⟩
      else ⟨0, [p.1, .configure cfgCmd, .build bCmd, .test tCmd], p.2⟩
    else ⟨0, [p.1, .configure cfgCmd, .build bCmd], p.2⟩
  else ⟨1, [.usage], fs⟩

/-! ## scripts/build_linux.sh -/

/-- The option variables of build_linux.sh (defaults at lines 147-152). -/
structure LinuxOpts where
  BUILD_TYPE : String
  ACTION : String
  COMPILER : String
  CLEAN_BUILD : Bool
  INTERACTIVE_MODE : Bool
deriving DecidableEq

/-- build_linux.sh lines 147-152: BUILD_TYPE="Debug", ACTION="configure_and_build",
COMPILER="gcc", CLEAN_BUILD=false, INTERACTIVE_MODE=false. -/
def linuxDefaults : LinuxOpts :=
  ⟨"Debug", "configure_and_build", "gcc", false, false⟩

/-- The main option loop of build_linux.sh (lines 155-185).  `-t`, `-a` and
`-c` take the next argument unconditionally; with no next argument the variable is set
empty and the following `shift 2` fails, aborting the script under set -e
(`shiftErr`).  `-h`, `--help` and any unknown option print usage and exit 1
(`usageErr`). -/
def parseLinuxArgs : List String → LinuxOpts → Except ParseErr LinuxOpts
  | [], o => .ok o
  | a :: rest, o =>
    if a == "-t" || a == "--build-type" then
      match rest with
      | [] => .error .shiftErr
      | v :: rest2 => parseLinuxArgs rest2 { o with BUILD_TYPE := v }
    else if a == "-a" || a == "--action" then
      match rest with
      | [] => .error .shiftErr
      | v :: rest2 => parseLinuxArgs rest2 { o with ACTION := v }
    else if a == "-c" || a == "--compiler" then
      match rest with
      | [] => .error .shiftErr
      | v :: rest2 => parseLinuxArgs rest2 { o with COMPILER := v }
    else if a == "-clean" || a == "--clean" then
      parseLinuxArgs rest { o with CLEAN_BUILD := true }
    else if a == "-interactive" || a == "--interactive" then
      parseLinuxArgs rest { o with INTERACTIVE_MODE := true }
    else
      .error .usageErr

/-- interactive_mode of build_linux.sh (lines 80-145): five answers are read
from standard input (build type choice, compiler choice, action choice, clean
y/N, proceed Y/n).  The first three overwrite BUILD_TYPE/COMPILER/ACTION with
the chosen value (any unrecognised answer selects the default); a y/Y answer
turns CLEAN_BUILD on (anything else leaves it as parsed); an n/N answer at the
final confirmation cancels the build, exit 0 (`none`). -/
def interactive_mode (stdin : List String) (o : LinuxOpts) : Option LinuxOpts :=
  let bc := stdin.getD 0 ""
  let cc := stdin.getD 1 ""
  let ac := stdin.getD 2 ""
  let cl := stdin.getD 3 ""
  let pr := stdin.getD 4 ""
  let o1 := { o with BUILD_TYPE :=
    if bc == "2" then "Release"
    else if bc == "3" then "RelWithDebInfo"
    else if bc == "4" then "MinSizeRel"
    else "Debug" }
  let o2 := { o1 with COMPILER := if cc == "2" then "clang" else "gcc" }
  let o3 := { o2 with ACTION :=
    if ac == "1" then "configure"
    else if ac == "3" then "test"
    else "configure_and_build" }
  let o4 := if cl == "y" || cl == "Y" then { o3 with CLEAN_BUILD := true } else o3
  if pr == "n" || pr == "N" then none else some o4

/-- build_cmake_command of build_linux.sh (lines 211-221): the configure
command for the selected compiler, ending in the project root. -/
def linuxConfigureCmd (root : String) (o : LinuxOpts) : String :=
  if o.COMPILER == "gcc" then
    "cmake -DCMAKE_BUILD_TYPE=" ++ o.BUILD_TYPE ++
      " -DCMAKE_C_COMPILER=gcc -DCMAKE_CXX_COMPILER=g++ -DBUILD_TESTS=ON " ++ root
  else if o.COMPILER == "clang" then
    "cmake -DCMAKE_BUILD_TYPE=" ++ o.BUILD_TYPE ++
      " -DCMAKE_C_COMPILER=clang -DCMAKE_CXX_COMPILER=clang++ -DBUILD_TESTS=ON " ++ root
  else
    " " ++ root

/-- Does the CMake configure launched by build_linux.sh succeed?  It needs
cmake on the PATH, the compiler the command names (the version probe at lines
193-196 tolerates a missing compiler: the probing pipeline ends in awk, which
exits 0, so the script only fails later when cmake cannot find the compiler),
and a healthy project configuration. -/
def linuxConfigureOk (env : Env) (o : LinuxOpts) : Bool :=
  env.cmakeInstalled && env.configureOk &&
    (if o.COMPILER == "gcc" then env.gccInstalled else env.clangInstalled)

/-- A full run of build_linux.sh: jobs pre-pass, main option loop, optional
interactive mode (an nN answer at the confirmation exits 0), the compiler
support check (lines 192-200: a COMPILER other than gcc/clang exits 1), then
the action dispatch with CONFIGURE_COMMAND, `make -j$JOBS` and
`ctest --output-on-failure`. -/
def runLinux (env : Env) (root : String) (stdin : List String) (fs : Fs)
    (args : List String) : RunResult :=
  match jobsPrepass args "10" with
  | none => ⟨1, [], fs⟩
  | some (jobs, rest) =>
    match parseLinuxArgs rest linuxDefaults with
    | .error .usageErr => ⟨1, [.usage], fs⟩
    | .error .shiftErr => ⟨1, [], fs⟩
    | .ok o0 =>
      match if o0.INTERACTIVE_MODE then interactive_mode stdin o0 else some o0 with
      | none => ⟨0, [], fs⟩
      | some o =>
        if o.COMPILER == "gcc" || o.COMPILER == "clang" then
          dispatch o.ACTION o.CLEAN_BUILD fs
            (linuxConfigureOk env o) (linuxConfigureCmd root o)
            env.buildOk ("make -j" ++ jobs)
            env.testsOk "ctest --output-on-failure"
        else ⟨1, [], fs⟩

/-! ## scripts/build_windows.sh -/

/-- The option variables of build_windows.sh (defaults at lines 42-45).
INTERACTIVE_MODE is parsed (line 52) but never used afterwards. -/
structure WinOpts where
  BUILD_TYPE : String
  ACTION : String
  CLEAN_BUILD : Bool
  INTERACTIVE_MODE : Bool
deriving DecidableEq

/-- build_windows.sh lines 42-45. -/
def winDefaults : WinOpts :=
  ⟨"Debug", "configure_and_build", false, false⟩

/-- The main option loop of build_windows.sh (lines 47-56); same shape as the
Linux one minus `-c`. -/
def parseWinArgs : List String → WinOpts → Except ParseErr WinOpts
  | [], o => .ok o
  | a :: rest, o =>
    if a == "-t" || a == "--build-type" then
      match rest with
      | [] => .error .shiftErr
      | v :: rest2 => parseWinArgs rest2 { o with BUILD_TYPE := v }
    else if a == "-a" || a == "--action" then
      match rest with
      | [] => .error .shiftErr
      | v :: rest2 => parseWinArgs rest2 { o with ACTION := v }
    else if a == "-clean" || a == "--clean" then
      parseWinArgs rest { o with CLEAN_BUILD := true }
    else if a == "-interactive" || a == "--interactive" then
      parseWinArgs rest { o with INTERACTIVE_MODE := true }
    else
      .error .usageErr

/-- build_cmake_command of build_windows.sh (lines 81-83), rendered as the
argument text cmake receives (shell quoting dropped). -/
def winConfigureCmd (root : String) (bt : String) : String :=
  "cmake -G Visual Studio 17 2022 -A x64 -DCMAKE_BUILD_TYPE=" ++ bt ++
    " -DCMAKE_C_COMPILER=cl -DCMAKE_CXX_COMPILER=cl -DVNE_TEMPLATE_TESTS=ON " ++ root

/-- A full run of build_windows.sh: jobs pre-pass, option loop, the explicit
`command -v cl` check (lines 58-63, exit 1 when cl is absent), the
`command -v cmake` check (lines 65-68), then the action dispatch. -/
def runWindows (env : Env) (root : String) (fs : Fs) (args : List String) : RunResult :=
  match jobsPrepass args "10" with
  | none => ⟨1, [], fs⟩
  | some (jobs, rest) =>
    match parseWinArgs rest winDefaults with
    | .error .usageErr => ⟨1, [.usage], fs⟩
    | .error .shiftErr => ⟨1, [], fs⟩
    | .ok o =>
      if !env.clInstalled then ⟨1, [], fs⟩
      else if !env.cmakeInstalled then ⟨1, [], fs⟩
      else
        dispatch o.ACTION o.CLEAN_BUILD fs
          env.configureOk (winConfigureCmd root o.BUILD_TYPE)
          env.buildOk ("cmake --build . --config " ++ o.BUILD_TYPE ++ " --parallel " ++ jobs)
          env.testsOk ("ctest -C " ++ o.BUILD_TYPE ++ " --output-on-failure")

/-! ## build_macos.sh (src/unnamed/part_002) -/

/-- The option variables of the macOS script (defaults at part_002 lines
38-41); JOBS is threaded through because the main loop's own `-j|--jobs` case
(unreachable: the pre-pass already consumed every jobs flag) would overwrite
it. -/
structure MacOpts where
  BUILD_TYPE : String
  ACTION : String
  CLEAN_BUILD : Bool
  GENERATE_XCODE : Bool
  JOBS : String
deriving DecidableEq

/-- part_002 lines 38-41 plus the JOBS value left by the pre-pass. -/
def macInit (jobs : String) : MacOpts :=
  ⟨"Debug", "configure_and_build", false, false, jobs⟩

/-- The main option loop of the macOS script (part_002 lines 43-54). -/
def parseMacArgs : List String → MacOpts → Except ParseErr MacOpts
  | [], o => .ok o
  | a :: rest, o =>
    if a == "-t" || a == "--build-type" then
      match rest with
      | [] => .error .shiftErr
      | v :: rest2 => parseMacArgs rest2 { o with BUILD_TYPE := v }
    else if a == "-a" || a == "--action" then
      match rest with
      | [] => .error .shiftErr
      | v :: rest2 => parseMacArgs rest2 { o with ACTION := v }
    else if a == "-clean" || a == "--clean" then
      parseMacArgs rest { o with CLEAN_BUILD := true }
    else if a == "-xcode" || a == "--xcode" then
      parseMacArgs rest { o with GENERATE_XCODE := true }
    else if a == "-j" || a == "--jobs" then
      match rest with
      | [] => .error .shiftErr
      | v :: rest2 => parseMacArgs rest2 { o with JOBS := v }
    else
      .error .usageErr

/-- CONFIGURE_CMD of the macOS script (part_002 lines 63-73). -/
def macConfigureCmd (root : String) (o : MacOpts) : String :=
  if o.GENERATE_XCODE then
    "cmake -G Xcode -DCMAKE_BUILD_TYPE=" ++ o.BUILD_TYPE ++
      " -DCMAKE_C_COMPILER=clang -DCMAKE_CXX_COMPILER=clang++ -DCMAKE_OSX_DEPLOYMENT_TARGET=10.15 -DBUILD_TESTS=ON " ++ root
  else
    "cmake -DCMAKE_BUILD_TYPE=" ++ o.BUILD_TYPE ++
      " -DCMAKE_C_COMPILER=clang -DCMAKE_CXX_COMPILER=clang++ -DCMAKE_OSX_DEPLOYMENT_TARGET=10.15 -DBUILD_TESTS=ON " ++ root

/-- BUILD_CMD of the macOS script. -/
def macBuildCmd (o : MacOpts) : String :=
  if o.GENERATE_XCODE then
    "xcodebuild -project vnetemplate.xcodeproj -configuration " ++ o.BUILD_TYPE ++
      " -parallelizeTargets -jobs " ++ o.JOBS
  else
    "make -j" ++ o.JOBS

/-- TEST_CMD of the macOS script. -/
def macTestCmd (o : MacOpts) : String :=
  if o.GENERATE_XCODE then
    "xcodebuild -project vnetemplate.xcodeproj -configuration " ++ o.BUILD_TYPE ++
      " -target RUN_TESTS"
  else
    "ctest --output-on-failure"

/-- A full run of the macOS script: jobs pre-pass, option loop, then the action
dispatch.  The clang version probe (part_002 lines 56-57) tolerates a missing
clang (`|| true`, fallback "unknown"), so a missing compiler surfaces only when
the launched cmake cannot find clang and fails. -/
def runMacos (env : Env) (root : String) (fs : Fs) (args : List String) : RunResult :=
  match jobsPrepass args "10" with
  | none => ⟨1, [], fs⟩
  | some (jobs, rest) =>
    match parseMacArgs rest (macInit jobs) with
    | .error .usageErr => ⟨1, [.usage], fs⟩
    | .error .shiftErr => ⟨1, [], fs⟩
    | .ok o =>
      dispatch o.ACTION o.CLEAN_BUILD fs
        (env.cmakeInstalled && env.clangInstalled && env.configureOk)
        (macConfigureCmd root o)
        env.buildOk (macBuildCmd o)
        env.testsOk (macTestCmd o)

/-! ## scripts/build_windows.ps1 -/

/-- The parameters of build_windows.ps1 (param block, lines 13-20), with their
defaults.  Jobs is kept as its numeral text. -/
structure Ps1Opts where
  BuildType : String
  Action : String
  Clean : Bool
  Jobs : String
deriving DecidableEq

/-- build_windows.ps1 lines 13-20: Debug, configure_and_build, no -Clean,
10 jobs. -/
def ps1Defaults : Ps1Opts :=
  ⟨"Debug", "configure_and_build", false, "10"⟩

/-- The `[ValidateSet(...)]` of the BuildType parameter. -/
def ps1BuildTypes : List String :=
  ["Debug", "Release", "RelWithDebInfo", "MinSizeRel"]

/-- The `[ValidateSet(...)]` of the Action parameter. -/
def ps1Actions : List String :=
  ["configure", "build", "configure_and_build", "test"]

/-- PowerShell parameter binding for build_windows.ps1, for invocations that
name their parameters: `-BuildType`/`-Action` take the next argument and must
pass their ValidateSet, `-Clean` is a switch, `-Jobs` takes an integer numeral.
A value failing validation, a missing value, a malformed integer, or an unknown
parameter name is a binding error: the script never starts and PowerShell exits
non-zero (`none`).  (Positional binding is not modelled.) -/
def ps1Bind : List String → Ps1Opts → Option Ps1Opts
  | [], o => some o
  | a :: rest, o =>
    if a == "-BuildType" then
      match rest with
      | [] => none
      | v :: rest2 =>
        if ps1BuildTypes.contains v then ps1Bind rest2 { o with BuildType := v } else none
    else if a == "-Action" then
      match rest with
      | [] => none
      | v :: rest2 =>
        if ps1Actions.contains v then ps1Bind rest2 { o with Action := v } else none
    else if a == "-Clean" then
      ps1Bind rest { o with Clean := true }
    else if a == "-Jobs" then
      match rest with
      | [] => none
      | v :: rest2 => if isDigits v then ps1Bind rest2 { o with Jobs := v } else none
    else
      none

/-- $BuildDir of build_windows.ps1 (line 40). -/
def ps1BuildDir (root : String) (o : Ps1Opts) : String :=
  root ++ "\\build\\" ++ o.BuildType ++ "\\build-windows-msvc"

/-- $ConfigureCmd of build_windows.ps1 (lines 28-41): the generator is Visual
Studio when vswhere finds an installation, otherwise Ninja with cl. -/
def ps1ConfigureCmd (env : Env) (root : String) (o : Ps1Opts) : String :=
  "cmake -B " ++ ps1BuildDir root o ++ " -S " ++ root ++
    " -DCMAKE_BUILD_TYPE=" ++ o.BuildType ++ " -DBUILD_TESTS=ON " ++
    (if env.vsInstalled then "-G Visual Studio 17 2022 -A x64"
     else "-G Ninja -DCMAKE_C_COMPILER=cl.exe -DCMAKE_CXX_COMPILER=cl.exe")

/-- $BuildCmd of build_windows.ps1 (line 42). -/
def ps1BuildCmd (root : String) (o : Ps1Opts) : String :=
  "cmake --build " ++ ps1BuildDir root o ++ " --config " ++ o.BuildType ++
    " --parallel " ++ o.Jobs

/-- $TestCmd of build_windows.ps1 (line 43). -/
def ps1TestCmd (root : String) (o : Ps1Opts) : String :=
  "ctest --test-dir " ++ ps1BuildDir root o ++ " --output-on-failure -C " ++ o.BuildType

/-- A full run of build_windows.ps1.  Every switch branch first runs Clean-Build
when -Clean was passed and then Ensure-BuildDir (lines 58-78).  A missing cmake
makes Invoke-Expression throw under $ErrorActionPreference = "Stop", ending the
run non-zero; a native command that merely returns a non-zero exit code does
not stop a PowerShell script, so with cmake present the remaining steps are
launched regardless and the script itself ends with exit 0.  The switch default
(usage + exit 1) is unreachable because binding already validated Action. -/
def runPs1 (env : Env) (root : String) (fs : Fs) (args : List String) : RunResult :=
  match ps1Bind args ps1Defaults with
  | none => ⟨1, [], fs⟩
  | some o =>
    if validAction o.Action then
      let fs2 := ensure_build_dir (if o.Clean then clean_build fs else fs)
      let tr0 : List Step := if o.Clean then [.cleanDir, .ensureDir] else [.ensureDir]
      if !env.cmakeInstalled then
        ⟨1, tr0 ++ [.configure (ps1ConfigureCmd env root o)], fs2⟩
      else if o.Action == "configure" then
        ⟨0, tr0 ++ [.configure (ps1ConfigureCmd env root o)], fs2⟩
      else if o.Action == "test" then
        ⟨0, tr0 ++ [.configure (ps1ConfigureCmd env root o), .build (ps1BuildCmd root o),
          .test (ps1TestCmd root o)], fs2⟩
      else
        ⟨0, tr0 ++ [.configure (ps1ConfigureCmd env root o), .build (ps1BuildCmd root o)], fs2⟩
    else ⟨1, [.usage], fs⟩

/-! ## Predicates the claims are stated with -/

/-- The inputs build_linux.sh rejects at script level: a jobs flag without a
numeric value, a failing main option loop (unknown option, help, or an option
missing its value), or — for the options in effect after a non-cancelled
interactive session — an action outside the case statement, a compiler other
than gcc/clang, or a selected compiler that is not installed (the launched
cmake then fails to find it). -/
def linuxRejects (env : Env) (stdin : List String) (args : List String) : Bool :=
  match jobsPrepass args "10" with
  | none => true
  | some (_, rest) =>
    match parseLinuxArgs rest linuxDefaults with
    | .error _ => true
    | .ok o0 =>
      match (if o0.INTERACTIVE_MODE then interactive_mode stdin o0 else some o0) with
      | none => false
      | some o =>
        !validAction o.ACTION ||
          (o.COMPILER != "gcc" && o.COMPILER != "clang") ||
          (o.COMPILER == "gcc" && !env.gccInstalled) ||
          (o.COMPILER == "clang" && !env.clangInstalled)

/-- The inputs build_windows.sh rejects: a non-numeric jobs value, a failing
option loop, a missing cl compiler, or an action outside the case statement. -/
def winRejects (env : Env) (args : List String) : Bool :=
  match jobsPrepass args "10" with
  | none => true
  | some (_, rest) =>
    match parseWinArgs rest winDefaults with
    | .error _ => true
    | .ok o => !env.clInstalled || !validAction o.ACTION

/-- The inputs the macOS script rejects: a non-numeric jobs value, a failing
option loop, an action outside the case statement, or a missing clang (the
launched cmake then fails to find it). -/
def macRejects (env : Env) (args : List String) : Bool :=
  match jobsPrepass args "10" with
  | none => true
  | some (j, rest) =>
    match parseMacArgs rest (macInit j) with
    | .error _ => true
    | .ok o => !validAction o.ACTION || !env.clangInstalled

/-- What a script run must look like for each action value, per the claim: the
external steps launched (in order) are configure alone for `configure`,
configure then build for `build` and `configure_and_build`, configure, build,
then tests for `test`; any other action value prints usage (and nothing else)
and exits non-zero. -/
def stepSpec (action : String) (r : RunResult) : Prop :=
  (action = "configure" → actionKinds r.trace = [.configureK] ∧ r.exit = 0) ∧
  ((action = "build" ∨ action = "configure_and_build") →
    actionKinds r.trace = [.configureK, .buildK] ∧ r.exit = 0) ∧
  (action = "test" →
    actionKinds r.trace = [.configureK, .buildK, .testK] ∧ r.exit = 0) ∧
  (validAction action = false → r.trace = [Step.usage] ∧ r.exit ≠ 0)

/-- The build-directory outcome the claim asks for: with the clean flag the
directory ends up removed and recreated empty whatever was there before; with
no clean flag an existing directory and its contents are left in place, and the
directory is created (empty) only when it was missing. -/
def dirOutcome (clean : Bool) (fs0 : Fs) (r : RunResult) : Prop :=
  (clean = true → r.fs = ⟨some 0⟩) ∧
  (clean = false → ∀ c, fs0.buildDir = some c → r.fs = fs0) ∧
  (clean = false → fs0.buildDir = none → r.fs = ⟨some 0⟩)

/-- The trace starts with exactly the given directory-preparation steps and no
directory step occurs later: the build directory is prepared before the action
runs. -/
def dirFirst (ds : List Step) (r : RunResult) : Prop :=
  ∃ rest, r.trace = ds ++ rest ∧ rest.all (fun s => !isDirStep s) = true

/-! ## Helper lemmas -/

/-- An action value outside the case statement prints usage and exits 1 without
touching the build directory. -/
theorem dispatch_invalid (a : String) (clean : Bool) (fs : Fs) (c1 : Bool)
    (s1 : String) (b1 : Bool) (s2 : String) (t1 : Bool) (s3 : String)
    (h : validAction a = false) :
    dispatch a clean fs c1 s1 b1 s2 t1 s3 = ⟨1, [Step.usage], fs⟩ := by
  simp [dispatch, h]

/-- When the configure command fails, every dispatch path exits 1. -/
theorem dispatch_exit_of_cfgFail (a : String) (clean : Bool) (fs : Fs)
    (s1 : String) (b1 : Bool) (s2 : String) (t1 : Bool) (s3 : String) :
    (dispatch a clean fs false s1 b1 s2 t1 s3).exit = 1 := by
  by_cases h : validAction a = true <;> simp [dispatch, h]

/-- With all external commands succeeding, the dispatch launches exactly the
steps the claim lists for each action value. -/
theorem stepSpec_dispatch (a : String) (clean : Bool) (fs : Fs)
    (s1 s2 s3 : String) :
    stepSpec a (dispatch a clean fs true s1 true s2 true s3) := by
  refine ⟨?_, ?_, ?_, ?_⟩
  · intro h
    subst h
    cases clean <;>
      simp [dispatch, validAction, dirPrep, actionKinds, isActionStep, Step.kind,
        List.filter, clean_build, ensure_build_dir]
  · intro h
    rcases h with h | h <;> subst h <;> cases clean <;>
      simp [dispatch, validAction, dirPrep, actionKinds, isActionStep, Step.kind,
        List.filter, clean_build, ensure_build_dir]
  · intro h
    subst h
    cases clean <;>
      simp [dispatch, validAction, dirPrep, actionKinds, isActionStep, Step.kind,
        List.filter, clean_build, ensure_build_dir]
  · intro h
    simp [dispatch, h]

/-- Binding only ever writes ValidateSet values into Action, so a bound Action
is always one of the four case labels when the initial one is. -/
theorem ps1Bind_validAction : ∀ (args : List String) (d : Ps1Opts),
    validAction d.Action = true → ∀ o : Ps1Opts,
    ps1Bind args d = some o → validAction o.Action = true := by
  intro args d
  induction args, d using ps1Bind.induct <;> intro hd o h <;> unfold ps1Bind at h
  case case1 =>
    injection h with h2
    subst h2
    exact hd
  case case3 hc v rest2 hv ih =>
    simp only [hc, hv, if_true] at h
    exact ih hd o h
  case case6 hc1 hc2 v rest2 hv ih =>
    simp only [hc1, hc2, hv, if_true, if_false, Bool.false_eq_true] at h
    have hmem : v = "configure" ∨ v = "build" ∨ v = "configure_and_build" ∨ v = "test" := by
      simpa [ps1Actions] using hv
    refine ih ?_ o h
    rcases hmem with h4 | h4 | h4 | h4 <;> subst h4 <;> rfl
  case case8 ih =>
    simp only [*, if_true, if_false, Bool.false_eq_true] at h
    exact ih hd o h
  case case10 v rest2 hv ih =>
    simp only [*, if_true, if_false, Bool.false_eq_true] at h
    exact ih hd o h
  all_goals simp_all

/-! ## C1 -/

/-- C1: every call of hello() returns exactly the string
"Hello from VneTemplate". -/
theorem c1_hello_exact : hello = some "Hello from VneTemplate" :=
  rfl

/-! ## C2 -/

/-- C2: get_version() returns a non-null, non-empty string.  The returned
pointer is the PROJECT_VERSION string literal (never NULL), and with
PROJECT_VERSION configured (spec-modelled `configureConfig`) from the VERSION
file's semantic version string, the string is non-empty. -/
theorem c2_version_nonnull_nonempty (v : String) (h : isSemVer v = true) :
    ∃ s, get_version (configureConfig v) = some s ∧ s ≠ "" := by
  refine ⟨v, rfl, ?_⟩
  intro he
  subst he
  exact absurd h (by decide)

/-- C2 witness at the concrete version "0.1.0". -/
theorem c2_witness :
    isSemVer "0.1.0" = true ∧
      ∃ s, get_version (configureConfig "0.1.0") = some s ∧ s ≠ "" :=
  ⟨by decide, c2_version_nonnull_nonempty "0.1.0" (by decide)⟩

/-! ## C3 -/

/-- C3: get_version() returns exactly the PROJECT_VERSION constant that CMake
configures from the VERSION file, unchanged: for every VERSION file content
`v`, the configured constant is `v` itself and the function returns it. -/
theorem c3_version_configured (v : String) :
    get_version (configureConfig v) = some v ∧
      (configureConfig v).PROJECT_VERSION = v :=
  ⟨rfl, rfl⟩

/-! ## C4 -/

/-- C4: get_version() and hello() are deterministic and pure: a call returns
the same value from any ambient state (so any two calls, in the same or in
different runs of the same build, agree), never returns NULL (never fails), and
leaves the ambient state unchanged. -/
theorem c4_pure_deterministic (cfg : Config) (σ : Type) (c : ApiCall) (s t : σ) :
    (callApi cfg c s).1 = (callApi cfg c t).1 ∧
      (callApi cfg c s).2 = s ∧
      (callApi cfg c s).1 ≠ none := by
  cases c <;> simp [callApi, get_version, hello]

/-! ## C8 -/

/-- C8: the two functions are safe to call from any number of threads
concurrently: under any interleaving of any number of threads' calls against a
shared state, every call returns exactly its sequential result and the shared
state passes through the whole schedule unchanged (no shared mutable state, and
every call completes — no blocking). -/
theorem c8_thread_safe (cfg : Config) (σ : Type) (sched : List (Nat × ApiCall)) (s : σ) :
    runCalls cfg sched s = (sched.map (fun p => (p.1, seqResult cfg p.2)), s) := by
  induction sched generalizing s with
  | nil => rfl
  | cons hd tl ih =>
    obtain ⟨t, c⟩ := hd
    cases c <;> simp [runCalls, callApi, seqResult, ih]

/-! ## C9 -/

/-- C9: invoked with no arguments, every build script defaults to build type
Debug, action configure_and_build, clean disabled, and 10 parallel jobs: the
jobs pre-pass leaves JOBS = "10", each option parser returns its default
record, and (for instance on Linux, in a fully healthy environment) the run
configures with CMAKE_BUILD_TYPE=Debug and builds with make -j10 without
cleaning an existing build directory. -/
theorem c9_no_argument_defaults (root : String) :
    jobsPrepass [] "10" = some ("10", []) ∧
    parseLinuxArgs [] linuxDefaults =
      .ok ⟨"Debug", "configure_and_build", "gcc", false, false⟩ ∧
    parseWinArgs [] winDefaults = .ok ⟨"Debug", "configure_and_build", false, false⟩ ∧
    parseMacArgs [] (macInit "10") =
      .ok ⟨"Debug", "configure_and_build", false, false, "10"⟩ ∧
    ps1Bind [] ps1Defaults = some ⟨"Debug", "configure_and_build", false, "10"⟩ ∧
    (runLinux envAllOk root [] ⟨some 5⟩ []).trace =
      [Step.ensureDir,
       Step.configure ("cmake -DCMAKE_BUILD_TYPE=Debug -DCMAKE_C_COMPILER=gcc -DCMAKE_CXX_COMPILER=g++ -DBUILD_TESTS=ON " ++ root),
       Step.build "make -j10"] ∧
    (runLinux envAllOk root [] ⟨some 5⟩ []).fs = ⟨some 5⟩ :=
  ⟨rfl, rfl, rfl, rfl, rfl, rfl, rfl⟩

/-! ## C5 -/

/-- C5 counterexample: the claim also lists "an invalid build-type value"
among the inputs every build script exits non-zero on, but the bash scripts do
not validate the -t value and CMake accepts an arbitrary CMAKE_BUILD_TYPE, so
`build_linux.sh -t NotABuildType` in a healthy environment exits 0 (and ran a
configure and a build). -/
theorem c5_counterexample :
    (runLinux envAllOk "/r" [] ⟨none⟩ ["-t", "NotABuildType"]).exit = 0 ∧
      actionKinds (runLinux envAllOk "/r" [] ⟨none⟩ ["-t", "NotABuildType"]).trace =
        [SKind.configureK, SKind.buildK] := by
  exact ⟨rfl, rfl⟩

/-- C5 (amended): dropping only the invalid build-type case, every invocation
of build_linux.sh, build_windows.sh or build_macos.sh with an unrecognized
option, an invalid (effective) action value, or a non-numeric -j value, or with
the required compiler missing or (on Linux, a -c value other than gcc/clang)
unsupported, terminates with a non-zero exit status.  The reject conditions per
script are `linuxRejects`, `winRejects`, `macRejects`. -/
theorem c5_reject_invalid (env : Env) (root : String) (stdin : List String)
    (fs : Fs) (args : List String) :
    (linuxRejects env stdin args = true → (runLinux env root stdin fs args).exit ≠ 0) ∧
    (winRejects env args = true → (runWindows env root fs args).exit ≠ 0) ∧
    (macRejects env args = true → (runMacos env root fs args).exit ≠ 0) := by
  refine ⟨?_, ?_, ?_⟩
  · intro h
    unfold linuxRejects at h
    unfold runLinux
    cases hp : jobsPrepass args "10" with
    | none => simp
    | some p =>
      obtain ⟨j, rest⟩ := p
      rw [hp] at h
      simp only at h
      cases hq : parseLinuxArgs rest linuxDefaults with
      | error e => cases e <;> simp [hq]
      | ok o0 =>
        rw [hq] at h
        simp only at h
        cases hio : (if o0.INTERACTIVE_MODE then interactive_mode stdin o0 else some o0) with
        | none => rw [hio] at h; simp at h
        | some o =>
          rw [hio] at h
          simp only [Bool.or_eq_true, Bool.and_eq_true, Bool.not_eq_true',
            bne_iff_ne, ne_eq, beq_iff_eq] at h
          simp only [hq, hio]
          rcases h with ((h | ⟨h1, h2⟩) | ⟨h1, h2⟩) | ⟨h1, h2⟩
          · by_cases hc : o.COMPILER = "gcc" ∨ o.COMPILER = "clang"
            · simp [hc, dispatch_invalid _ _ _ _ _ _ _ _ _ h]
            · simp [hc]
          · simp [h1, h2]
          · have hcfg : linuxConfigureOk env o = false := by
              simp [linuxConfigureOk, h1, h2]
            simp [h1, hcfg, dispatch_exit_of_cfgFail]
          · have hcfg : linuxConfigureOk env o = false := by
              simp [linuxConfigureOk, h1, h2]
            simp [h1, hcfg, dispatch_exit_of_cfgFail]
  · intro h
    unfold winRejects at h
    unfold runWindows
    cases hp : jobsPrepass args "10" with
    | none => simp
    | some p =>
      obtain ⟨j, rest⟩ := p
      rw [hp] at h
      simp only at h
      cases hq : parseWinArgs rest winDefaults with
      | error e => cases e <;> simp [hq]
      | ok o =>
        rw [hq] at h
        simp only [Bool.or_eq_true, Bool.not_eq_true'] at h
        rcases h with h | h
        · simp [hq, h]
        · cases hcl : env.clInstalled with
          | false => simp [hq, hcl]
          | true =>
            cases hcm : env.cmakeInstalled with
            | false => simp [hq, hcl, hcm]
            | true => simp [hq, hcl, hcm, dispatch_invalid _ _ _ _ _ _ _ _ _ h]
  · intro h
    unfold macRejects at h
    unfold runMacos
    cases hp : jobsPrepass args "10" with
    | none => simp
    | some p =>
      obtain ⟨j, rest⟩ := p
      rw [hp] at h
      simp only at h
      cases hq : parseMacArgs rest (macInit j) with
      | error e => cases e <;> simp [hq]
      | ok o =>
        rw [hq] at h
        simp only [Bool.or_eq_true, Bool.not_eq_true'] at h
        rcases h with h | h
        · simp [hq, dispatch_invalid _ _ _ _ _ _ _ _ _ h]
        · have hcfg : (env.cmakeInstalled && env.clangInstalled && env.configureOk) = false := by
            simp [h]
          simp [hq, hcfg, dispatch_exit_of_cfgFail]

/-- C5 witness: concrete rejected invocations — an unknown option on Linux, an
invalid action on Windows, a non-numeric jobs value on macOS — all exit
non-zero. -/
theorem c5_witness :
    (linuxRejects envAllOk [] ["-z"] = true ∧
      (runLinux envAllOk "/r" [] ⟨none⟩ ["-z"]).exit ≠ 0) ∧
    (winRejects envAllOk ["-a", "bogus"] = true ∧
      (runWindows envAllOk "/r" ⟨none⟩ ["-a", "bogus"]).exit ≠ 0) ∧
    (macRejects envAllOk ["-j", "many"] = true ∧
      (runMacos envAllOk "/r" ⟨none⟩ ["-j", "many"]).exit ≠ 0) :=
  ⟨⟨by decide, (c5_reject_invalid envAllOk "/r" [] ⟨none⟩ ["-z"]).1 (by decide)⟩,
   ⟨by decide, (c5_reject_invalid envAllOk "/r" [] ⟨none⟩ ["-a", "bogus"]).2.1 (by decide)⟩,
   ⟨by decide, (c5_reject_invalid envAllOk "/r" [] ⟨none⟩ ["-j", "many"]).2.2 (by decide)⟩⟩

/-! ## C6 -/

/-- C6: in the three cited build scripts (build_linux.sh, build_windows.sh and
build_macos.sh), once a run reaches the action dispatch (arguments parse, the
Linux run is non-interactive with a supported compiler) and the external tools
are all present and healthy, the action value selects exactly these steps in
this order: configure runs the CMake configuration only; build and
configure_and_build run configuration then build; test runs configuration,
build, then the tests; any other action value prints usage and exits
non-zero (`stepSpec`). -/
theorem c6_action_selects_steps (env : Env) (root : String) (stdin : List String)
    (fs : Fs) (args : List String) (j : String) (rest : List String)
    (hcfg : env.configureOk = true) (hbld : env.buildOk = true)
    (htst : env.testsOk = true) (hcm : env.cmakeInstalled = true)
    (hg : env.gccInstalled = true) (hcl : env.clangInstalled = true)
    (hmsvc : env.clInstalled = true)
    (hp : jobsPrepass args "10" = some (j, rest)) :
    (∀ o : LinuxOpts, parseLinuxArgs rest linuxDefaults = .ok o →
      o.INTERACTIVE_MODE = false → (o.COMPILER = "gcc" ∨ o.COMPILER = "clang") →
      stepSpec o.ACTION (runLinux env root stdin fs args)) ∧
    (∀ o : WinOpts, parseWinArgs rest winDefaults = .ok o →
      stepSpec o.ACTION (runWindows env root fs args)) ∧
    (∀ o : MacOpts, parseMacArgs rest (macInit j) = .ok o →
      stepSpec o.ACTION (runMacos env root fs args)) := by
  refine ⟨?_, ?_, ?_⟩
  · intro o hq hni hcomp
    have hco : linuxConfigureOk env o = true := by
      rcases hcomp with h | h <;> simp [linuxConfigureOk, h, hcm, hcfg, hg, hcl]
    have hrun : runLinux env root stdin fs args =
        dispatch o.ACTION o.CLEAN_BUILD fs true (linuxConfigureCmd root o)
          true ("make -j" ++ j) true "ctest --output-on-failure" := by
      unfold runLinux
      rcases hcomp with h | h <;>
        simp [hp, hq, hni, hco, hbld, htst, h]
    rw [hrun]
    exact stepSpec_dispatch _ _ _ _ _ _
  · intro o hq
    have hrun : runWindows env root fs args =
        dispatch o.ACTION o.CLEAN_BUILD fs true (winConfigureCmd root o.BUILD_TYPE)
          true ("cmake --build . --config " ++ o.BUILD_TYPE ++ " --parallel " ++ j)
          true ("ctest -C " ++ o.BUILD_TYPE ++ " --output-on-failure") := by
      unfold runWindows
      simp [hp, hq, hmsvc, hcm, hcfg, hbld, htst]
    rw [hrun]
    exact stepSpec_dispatch _ _ _ _ _ _
  · intro o hq
    have hrun : runMacos env root fs args =
        dispatch o.ACTION o.CLEAN_BUILD fs true (macConfigureCmd root o)
          true (macBuildCmd o) true (macTestCmd o) := by
      unfold runMacos
      simp [hp, hq, hcm, hcl, hcfg, hbld, htst]
    rw [hrun]
    exact stepSpec_dispatch _ _ _ _ _ _

/-- C6 witness: `-a test` on Linux in a healthy environment runs configure,
build, then tests. -/
theorem c6_witness :
    stepSpec "test" (runLinux envAllOk "/r" [] ⟨none⟩ ["-a", "test"]) :=
  (c6_action_selects_steps envAllOk "/r" [] ⟨none⟩ ["-a", "test"] "10" ["-a", "test"]
      rfl rfl rfl rfl rfl rfl rfl rfl).1
    ⟨"Debug", "test", "gcc", false, false⟩ rfl rfl (Or.inl rfl)

/-! ## C7 -/

/-- Every valid-action dispatch path starts with the directory-preparation
step, never repeats it, and leaves the build directory exactly as dirPrep
did. -/
theorem dispatch_shape (a : String) (clean : Bool) (fs : Fs) (c1 : Bool)
    (s1 : String) (b1 : Bool) (s2 : String) (t1 : Bool) (s3 : String)
    (hv : validAction a = true) :
    ∃ rest, (dispatch a clean fs c1 s1 b1 s2 t1 s3).trace = (dirPrep clean fs).1 :: rest ∧
      rest.all (fun s => !isDirStep s) = true ∧
      (dispatch a clean fs c1 s1 b1 s2 t1 s3).fs = (dirPrep clean fs).2 := by
  unfold dispatch
  simp only [hv, if_true]
  repeat' split
  all_goals exact ⟨_, rfl, by simp [isDirStep], rfl⟩

/-- dispatch honours the clean flag: with it the build directory is removed
and recreated before anything else; without it an existing directory is kept
and a missing one created, again before anything else. -/
theorem dispatch_dir (a : String) (clean : Bool) (fs : Fs) (c1 : Bool)
    (s1 : String) (b1 : Bool) (s2 : String) (t1 : Bool) (s3 : String)
    (hv : validAction a = true) :
    dirOutcome clean fs (dispatch a clean fs c1 s1 b1 s2 t1 s3) ∧
      dirFirst [if clean then Step.cleanDir else Step.ensureDir]
        (dispatch a clean fs c1 s1 b1 s2 t1 s3) := by
  obtain ⟨rest, htr, hall, hfs⟩ := dispatch_shape a clean fs c1 s1 b1 s2 t1 s3 hv
  constructor
  · refine ⟨?_, ?_, ?_⟩
    · intro hcl
      subst hcl
      rw [hfs]
      simp [dirPrep, clean_build]
    · intro hcl c hc
      subst hcl
      rw [hfs]
      obtain ⟨bd⟩ := fs
      simp only [Fs.mk.injEq] at hc ⊢
      subst hc
      simp [dirPrep, ensure_build_dir]
    · intro hcl hnone
      subst hcl
      rw [hfs]
      obtain ⟨bd⟩ := fs
      simp only at hnone
      subst hnone
      simp [dirPrep, ensure_build_dir]
  · refine ⟨rest, ?_, hall⟩
    rw [htr]
    cases clean <;> simp [dirPrep]

/-- The same for a bound build_windows.ps1 run: Clean-Build (when -Clean) and
Ensure-BuildDir run before everything else and produce the claimed directory
state. -/
theorem runPs1_dir (env : Env) (root : String) (fs : Fs) (args : List String)
    (o : Ps1Opts) (hb : ps1Bind args ps1Defaults = some o) :
    dirOutcome o.Clean fs (runPs1 env root fs args) ∧
      dirFirst (if o.Clean then [Step.cleanDir, Step.ensureDir] else [Step.ensureDir])
        (runPs1 env root fs args) := by
  have hva : validAction o.Action = true :=
    ps1Bind_validAction args ps1Defaults rfl o hb
  unfold runPs1
  simp only [hb, hva, if_true]
  have hshape : ∃ rest,
      (runPs1 env root fs args).trace =
        (if o.Clean then [Step.cleanDir, Step.ensureDir] else [Step.ensureDir]) ++ rest ∧
      rest.all (fun s => !isDirStep s) = true ∧
      (runPs1 env root fs args).fs =
        ensure_build_dir (if o.Clean then clean_build fs else fs) := by
    unfold runPs1
    simp only [hb, hva, if_true]
    repeat' split
    all_goals exact ⟨_, rfl, by simp [isDirStep], rfl⟩
  obtain ⟨rest, htr, hall, hfs⟩ := hshape
  constructor
  · refine ⟨?_, ?_, ?_⟩
    · intro hcl
      have : (runPs1 env root fs args).fs = ⟨some 0⟩ := by
        rw [hfs, hcl]
        simp [clean_build, ensure_build_dir]
      simpa [runPs1, hb, hva] using this
    · intro hcl c hc
      have : (runPs1 env root fs args).fs = fs := by
        rw [hfs, hcl]
        obtain ⟨bd⟩ := fs
        simp only at hc
        subst hc
        simp [ensure_build_dir]
      simpa [runPs1, hb, hva] using this
    · intro hcl hnone
      have : (runPs1 env root fs args).fs = ⟨some 0⟩ := by
        rw [hfs, hcl]
        obtain ⟨bd⟩ := fs
        simp only at hnone
        subst hnone
        simp [ensure_build_dir]
      simpa [runPs1, hb, hva] using this
  · refine ⟨rest, ?_, hall⟩
    have := htr
    simpa [runPs1, hb, hva] using this

/-- C7: in every build script and for every valid action, the clean flag makes
the run remove and recreate the build directory before the action's steps,
while without it an existing build directory and its contents are left in
place and the directory is only created when missing (`dirOutcome`,
`dirFirst`). -/
theorem c7_clean_flag (env : Env) (root : String) (stdin : List String)
    (fs : Fs) (args : List String) :
    (∀ (j : String) (rest : List String) (o : LinuxOpts),
      jobsPrepass args "10" = some (j, rest) →
      parseLinuxArgs rest linuxDefaults = .ok o → o.INTERACTIVE_MODE = false →
      (o.COMPILER = "gcc" ∨ o.COMPILER = "clang") → validAction o.ACTION = true →
      dirOutcome o.CLEAN_BUILD fs (runLinux env root stdin fs args) ∧
        dirFirst [if o.CLEAN_BUILD then Step.cleanDir else Step.ensureDir]
          (runLinux env root stdin fs args)) ∧
    (∀ (j : String) (rest : List String) (o : WinOpts),
      jobsPrepass args "10" = some (j, rest) →
      parseWinArgs rest winDefaults = .ok o →
      env.clInstalled = true → env.cmakeInstalled = true → validAction o.ACTION = true →
      dirOutcome o.CLEAN_BUILD fs (runWindows env root fs args) ∧
        dirFirst [if o.CLEAN_BUILD then Step.cleanDir else Step.ensureDir]
          (runWindows env root fs args)) ∧
    (∀ (j : String) (rest : List String) (o : MacOpts),
      jobsPrepass args "10" = some (j, rest) →
      parseMacArgs rest (macInit j) = .ok o → validAction o.ACTION = true →
      dirOutcome o.CLEAN_BUILD fs (runMacos env root fs args) ∧
        dirFirst [if o.CLEAN_BUILD then Step.cleanDir else Step.ensureDir]
          (runMacos env root fs args)) ∧
    (∀ o : Ps1Opts, ps1Bind args ps1Defaults = some o →
      dirOutcome o.Clean fs (runPs1 env root fs args) ∧
        dirFirst (if o.Clean then [Step.cleanDir, Step.ensureDir] else [Step.ensureDir])
          (runPs1 env root fs args)) := by
  refine ⟨?_, ?_, ?_, ?_⟩
  · intro j rest o hp hq hni hcomp hva
    have hrun : runLinux env root stdin fs args =
        dispatch o.ACTION o.CLEAN_BUILD fs (linuxConfigureOk env o)
          (linuxConfigureCmd root o) env.buildOk ("make -j" ++ j)
          env.testsOk "ctest --output-on-failure" := by
      unfold runLinux
      rcases hcomp with h | h <;> simp [hp, hq, hni, h]
    rw [hrun]
    exact dispatch_dir _ _ _ _ _ _ _ _ _ hva
  · intro j rest o hp hq hcl hcm hva
    have hrun : runWindows env root fs args =
        dispatch o.ACTION o.CLEAN_BUILD fs env.configureOk
          (winConfigureCmd root o.BUILD_TYPE) env.buildOk
          ("cmake --build . --config " ++ o.BUILD_TYPE ++ " --parallel " ++ j)
          env.testsOk ("ctest -C " ++ o.BUILD_TYPE ++ " --output-on-failure") := by
      unfold runWindows
      simp [hp, hq, hcl, hcm]
    rw [hrun]
    exact dispatch_dir _ _ _ _ _ _ _ _ _ hva
  · intro j rest o hp hq hva
    have hrun : runMacos env root fs args =
        dispatch o.ACTION o.CLEAN_BUILD fs
          (env.cmakeInstalled && env.clangInstalled && env.configureOk)
          (macConfigureCmd root o) env.buildOk (macBuildCmd o)
          env.testsOk (macTestCmd o) := by
      unfold runMacos
      simp [hp, hq]
    rw [hrun]
    exact dispatch_dir _ _ _ _ _ _ _ _ _ hva
  · intro o hb
    exact runPs1_dir env root fs args o hb

/-- C7 witness: a clean Windows run on an existing, non-empty build directory
recreates it empty; the same run without the flag keeps the contents. -/
theorem c7_witness :
    (dirOutcome true ⟨some 7⟩ (runWindows envAllOk "/r" ⟨some 7⟩ ["-clean"]) ∧
      dirFirst [Step.cleanDir] (runWindows envAllOk "/r" ⟨some 7⟩ ["-clean"])) ∧
    (dirOutcome false ⟨some 7⟩ (runWindows envAllOk "/r" ⟨some 7⟩ []) ∧
      dirFirst [Step.ensureDir] (runWindows envAllOk "/r" ⟨some 7⟩ [])) :=
  ⟨(c7_clean_flag envAllOk "/r" [] ⟨some 7⟩ ["-clean"]).2.1 "10" ["-clean"]
      ⟨"Debug", "configure_and_build", true, false⟩ rfl rfl rfl rfl rfl,
   (c7_clean_flag envAllOk "/r" [] ⟨some 7⟩ []).2.1 "10" []
      ⟨"Debug", "configure_and_build", false, false⟩ rfl rfl rfl rfl rfl⟩

/-! ## C10 -/

/-- Under a valid action the second launched step is always the configure
command. -/
theorem dispatch_take2 (a : String) (clean : Bool) (fs : Fs) (c1 : Bool)
    (s1 : String) (b1 : Bool) (s2 : String) (t1 : Bool) (s3 : String)
    (hv : validAction a = true) :
    (dispatch a clean fs c1 s1 b1 s2 t1 s3).trace.take 2 =
      [(dirPrep clean fs).1, Step.configure s1] := by
  unfold dispatch
  simp only [hv, if_true]
  repeat' split
  all_goals rfl

/-- C10 counterexample: the claim says the bash scripts accept any string as
the -t value and forward it to CMake, but a value that itself looks like a jobs
flag is intercepted by the jobs pre-pass: `build_linux.sh -t -j5` consumes
"-j5" as the jobs count, leaving `-t` without a value, and the script exits 1
having launched nothing. -/
theorem c10_counterexample :
    (runLinux envAllOk "/r" [] ⟨none⟩ ["-t", "-j5"]).exit = 1 ∧
      (runLinux envAllOk "/r" [] ⟨none⟩ ["-t", "-j5"]).trace = [] :=
  ⟨rfl, rfl⟩

/-- C10 (amended): for every -t value that is not itself parsed as a jobs flag
(does not start with "-j" and is not "--jobs"), the three bash scripts accept
it unvalidated and forward it to CMake as CMAKE_BUILD_TYPE (their second
launched step is the configure command containing it verbatim), while
build_windows.ps1 rejects, with a non-zero exit, every build-type value outside
Debug, Release, RelWithDebInfo, MinSizeRel, and binds the values inside it. -/
theorem c10_build_type_forwarded (env : Env) (root : String) (stdin : List String)
    (fs : Fs) (s : String) (h1 : startsWithDashJ s = false) (h2 : s ≠ "--jobs") :
    (runLinux env root stdin fs ["-t", s]).trace.take 2 =
      [Step.ensureDir, Step.configure ("cmake -DCMAKE_BUILD_TYPE=" ++ s ++
        " -DCMAKE_C_COMPILER=gcc -DCMAKE_CXX_COMPILER=g++ -DBUILD_TESTS=ON " ++ root)] ∧
    (env.clInstalled = true → env.cmakeInstalled = true →
      (runWindows env root fs ["-t", s]).trace.take 2 =
        [Step.ensureDir, Step.configure ("cmake -G Visual Studio 17 2022 -A x64 -DCMAKE_BUILD_TYPE=" ++ s ++
          " -DCMAKE_C_COMPILER=cl -DCMAKE_CXX_COMPILER=cl -DVNE_TEMPLATE_TESTS=ON " ++ root)]) ∧
    (runMacos env root fs ["-t", s]).trace.take 2 =
      [Step.ensureDir, Step.configure ("cmake -DCMAKE_BUILD_TYPE=" ++ s ++
        " -DCMAKE_C_COMPILER=clang -DCMAKE_CXX_COMPILER=clang++ -DCMAKE_OSX_DEPLOYMENT_TARGET=10.15 -DBUILD_TESTS=ON " ++ root)] ∧
    (ps1BuildTypes.contains s = false → (runPs1 env root fs ["-BuildType", s]).exit ≠ 0) ∧
    (ps1BuildTypes.contains s = true →
      ps1Bind ["-BuildType", s] ps1Defaults = some ⟨s, "configure_and_build", false, "10"⟩) := by
  have hs1 : (s == "-j") = false := by
    cases hsj : s == "-j" with
    | false => rfl
    | true =>
      have hse : s = "-j" := by simpa using hsj
      subst hse
      exact absurd h1 (by decide)
  have hs2 : (s == "--jobs") = false := by
    cases hsj : s == "--jobs" with
    | false => rfl
    | true =>
      have hse : s = "--jobs" := by simpa using hsj
      subst hse
      exact absurd h2 (by simp)
  have hpre2 : jobsPrepass [s] "10" = some ("10", [s]) := by
    rw [jobsPrepass.eq_def]
    simp [hs1, hs2, h1, show jobsPrepass [] "10" = some ("10", []) from rfl]
  have hpre : jobsPrepass ["-t", s] "10" = some ("10", ["-t", s]) := by
    rw [jobsPrepass.eq_def]
    simp [show (("-t" : String) == "-j") = false from rfl,
      show (("-t" : String) == "--jobs") = false from rfl,
      show startsWithDashJ "-t" = false from rfl, hpre2]
  refine ⟨?_, ?_, ?_, ?_, ?_⟩
  · unfold runLinux
    simp only [hpre,
      show parseLinuxArgs ["-t", s] linuxDefaults =
        Except.ok ⟨s, "configure_and_build", "gcc", false, false⟩ from rfl]
    simp
    rw [dispatch_take2 _ _ _ _ _ _ _ _ _ (by decide)]
    simp [dirPrep, linuxConfigureCmd]
  · intro hcl hcm
    unfold runWindows
    simp only [hpre,
      show parseWinArgs ["-t", s] winDefaults =
        Except.ok ⟨s, "configure_and_build", false, false⟩ from rfl,
      hcl, hcm]
    simp
    rw [dispatch_take2 _ _ _ _ _ _ _ _ _ (by decide)]
    simp [dirPrep, winConfigureCmd]
  · unfold runMacos
    simp only [hpre,
      show parseMacArgs ["-t", s] (macInit "10") =
        Except.ok ⟨s, "configure_and_build", false, false, "10"⟩ from rfl]
    rw [dispatch_take2 _ _ _ _ _ _ _ _ _ (by decide)]
    simp [dirPrep, macConfigureCmd]
  · intro hbad
    unfold runPs1
    rw [show ps1Bind ["-BuildType", s] ps1Defaults =
      (if ps1BuildTypes.contains s = true then
        ps1Bind [] ⟨s, "configure_and_build", false, "10"⟩ else none) from rfl,
      if_neg (fun hc => by rw [hbad] at hc; exact Bool.false_ne_true hc)]
    simp
  · intro hgood
    rw [show ps1Bind ["-BuildType", s] ps1Defaults =
      (if ps1BuildTypes.contains s = true then
        ps1Bind [] ⟨s, "configure_and_build", false, "10"⟩ else none) from rfl,
      if_pos hgood]
    rfl

/-- C10 witness: the arbitrary value "Bogus" is forwarded verbatim by
build_linux.sh and rejected by build_windows.ps1. -/
theorem c10_witness :
    startsWithDashJ "Bogus" = false ∧
    (runLinux envAllOk "/r" [] ⟨none⟩ ["-t", "Bogus"]).trace.take 2 =
      [Step.ensureDir, Step.configure ("cmake -DCMAKE_BUILD_TYPE=" ++ "Bogus" ++
        " -DCMAKE_C_COMPILER=gcc -DCMAKE_CXX_COMPILER=g++ -DBUILD_TESTS=ON " ++ "/r")] ∧
    (runPs1 envAllOk "/r" ⟨none⟩ ["-BuildType", "Bogus"]).exit ≠ 0 := by
  have h := c10_build_type_forwarded envAllOk "/r" [] ⟨none⟩ "Bogus" (by decide) (by decide)
  exact ⟨by decide, h.1, h.2.2.2.1 (by decide)⟩

end VneTemplate
